import Mathlib

/-!
Verification development for the automail-agent browser automation core.

The Python source (src/browser/mailer.py, src/browser/launchers.py,
src/browser/process_managers.py) is shallowly embedded here.  Interactions
with the live browser page (DOM queries, clicks, fills, JS evaluation) are
modelled by explicit environment records describing the outcome of each
interaction; operating-system effects (temp directories, the process table)
are modelled by an explicit `SysState` threaded through the functions.
-/

namespace Automail

/-- Boolean infix test on character lists. -/
def charsInfix (needle : List Char) : List Char → Bool
  | [] => needle.isEmpty
  | c :: tl => needle.isPrefixOf (c :: tl) || charsInfix needle tl

/-- Python substring containment: `needle in hay`. -/
def strContains (hay needle : String) : Bool :=
  charsInfix needle.toList hay.toList

/-- Python space join, `' '.join(parts)`. -/
def joinSpace (parts : List String) : String :=
  String.intercalate " " parts

/-- ASCII lowering of one character (the names involved are ASCII), the
effect of Python `str.lower()` per character. -/
def charLower (c : Char) : Char :=
  if 65 ≤ c.toNat && c.toNat ≤ 90 then Char.ofNat (c.toNat + 32) else c

/-- Python `s.lower()` for ASCII strings. -/
def strLower (s : String) : String :=
  ⟨s.data.map charLower⟩

/- ---------------------------------------------------------------------
   src/schemas/enums.py
   --------------------------------------------------------------------- -/

/-- BrowserType (src/schemas/enums.py): Chrome and Firefox only. -/
inductive BrowserType
  | chrome
  | firefox
  deriving DecidableEq, Repr

/-- str(BrowserType) uses the enum value. -/
def BrowserType.str : BrowserType → String
  | .chrome => "chrome"
  | .firefox => "firefox"

/-- OSType (src/schemas/enums.py): Windows and Linux only. -/
inductive OSType
  | windows
  | linux
  deriving DecidableEq, Repr

/-- BrowserConfig (src/schemas/browser.py).  `os_type` is derived from the
runtime platform; we carry it as a field.  `profile_name` is accessed on the
config by the launcher through a `hasattr` guard, so it is kept as a field
with the default the launcher assumes. -/
structure BrowserConfig where
  browser_name : BrowserType
  headless : Bool
  os_type : OSType
  profile_name : String := "Default"
  deriving DecidableEq, Repr

/- ---------------------------------------------------------------------
   src/browser/mailer.py: environments for DOM interaction outcomes
   --------------------------------------------------------------------- -/

/-- Outcome of a JS `evaluate` readback: `err` = the call raised,
`ok v` = it returned (with `none` standing for null/None). -/
inductive EvalResult
  | err
  | ok (v : Option String)
  deriving DecidableEq, Repr

/-- Python truthiness plus the containment test
`if value and intended in value` used by `_fill_recipient` /
`_fill_subject` (mailer.py 276, 341, 401, 414). -/
def verifiesValue (intended v : String) : Bool :=
  (v ≠ "") && strContains v intended

/-- The body verification `if content and body[:20] in content`
(mailer.py 483, 545, 559): prefix-of-intended containment. -/
def verifiesPrefix (intended v : String) : Bool :=
  (v ≠ "") && strContains v (intended.take 20)

/-- Readback verification: a raised (or null) readback never verifies; a
returned value verifies when it passes `check`. -/
def readbackCheck (check : String → Bool) : Option String → Bool
  | some v => check v
  | none => false

/-- Per-selector outcome for `_fill_recipient` (mailer.py 250-284):
whether `query_selector` found the element, whether the click / clear /
fill calls raised, and the `input_value` readback (`none` = raised). -/
structure RecipientAttempt where
  found : Bool
  clickOk : Bool
  clearOk : Bool
  fillOk : Bool
  readback : Option String
  deriving DecidableEq, Repr

/-- Recipient selector list (mailer.py 229-248). -/
def recipient_selectors : List String :=
  ["input[aria-label=\"گیرندگان در فیلد «به»\"]",
   "input.agP.aFw",
   "input[id*=\":tx\"]",
   "textarea[aria-label=\"To\"]",
   "input[aria-label=\"To\"]",
   "textarea[name=\"to\"]",
   "div[aria-label=\"To\"] textarea",
   "div[aria-label=\"To\"] input",
   "textarea[aria-label*=\"To\"]",
   "input[aria-label*=\"To\"]",
   "div[role=\"combobox\"][aria-label*=\"To\"]",
   "div[data-hovercard-id=\"to\"] textarea",
   "div[data-hovercard-id=\"to\"] input",
   "input[placeholder*=\"To\"]",
   "input[placeholder*=\"به\"]"]

/-- One iteration of the `_fill_recipient` selector loop (mailer.py
250-284): any raise or a missing element falls through to the next
selector; success requires the readback to verify. -/
def recipient_attempt_result (recipient : String) (a : RecipientAttempt) : Bool :=
  a.found && a.clickOk && a.clearOk && a.fillOk &&
    readbackCheck (verifiesValue recipient) a.readback

/-- Model of `_fill_recipient` (mailer.py 222-287): iterate the selectors; return
true on the first verified fill, false when the list is exhausted. -/
def fill_recipient_loop (recipient : String) (env : String → RecipientAttempt) :
    List String → Bool
  | [] => false
  | s :: rest =>
    if recipient_attempt_result recipient (env s) then true
    else fill_recipient_loop recipient env rest

def fill_recipient (recipient : String) (env : String → RecipientAttempt) : Bool :=
  fill_recipient_loop recipient env recipient_selectors

/- ---------------------------------------------------------------------
   Tab-navigation phase shared by `_fill_subject` (mailer.py 314-347)
   and `_fill_body` (mailer.py 456-489)
   --------------------------------------------------------------------- -/

/-- Outcome of the per-selector inner loop body during a Tab step
(mailer.py 325-345 / 467-487): element presence, the focused-element
comparison, whether Ctrl+A + type raised, and the readback (`none` =
raised or null; both fall through to the next selector there). -/
structure TabInner where
  found : Bool
  isFocused : Bool
  typeOk : Bool
  readback : Option String
  deriving DecidableEq, Repr

/-- Outcome of one Tab key step: `pressOk` false means the Tab press or
the activeElement evaluation raised, which aborts the whole Tab phase
(the exception reaches the outer `except` at mailer.py 346 / 488);
`active` is the truthiness of `document.activeElement`. -/
structure TabStep where
  pressOk : Bool
  active : Bool
  inner : String → TabInner

/-- The success condition of one inner-loop iteration during a Tab step:
found and focused element, the typing did not raise, and the readback
passed `check`; every other outcome continues. -/
def tab_inner_result (check : String → Bool) (t : TabInner) : Bool :=
  t.found && t.isFocused && t.typeOk && readbackCheck check t.readback

/-- Inner loop over the first selectors during one Tab step. -/
def tab_inner_loop (check : String → Bool) (inner : String → TabInner) :
    List String → Bool
  | [] => false
  | s :: rest =>
    if tab_inner_result check (inner s) then true
    else tab_inner_loop check inner rest

/-- The Tab loop (`for tab_count in range(1, n)`): a raised Tab press
aborts the phase (returns false, control moves to the selector loop). -/
def tab_loop (check : String → Bool) (steps : Nat → TabStep) (sels : List String) :
    List Nat → Bool
  | [] => false
  | k :: ks =>
    if !(steps k).pressOk then false
    else if (steps k).active then
      if tab_inner_loop check ((steps k).inner) sels then true
      else tab_loop check steps sels ks
    else tab_loop check steps sels ks

/- ---------------------------------------------------------------------
   `_fill_subject` (mailer.py 289-429)
   --------------------------------------------------------------------- -/

/-- Subject selector list (mailer.py 296-311). -/
def subject_selectors : List String :=
  ["input[aria-label=\"موضوع\"]",
   "input[name=\"subjectbox\"]",
   "input.aoT",
   "input[id*=\":q3\"]",
   "input[aria-label=\"Subject\"]",
   "input[aria-label*=\"Subject\"]",
   "div[aria-label=\"Subject\"] input",
   "input[placeholder*=\"Subject\"]",
   "input[placeholder*=\"subject\"]",
   "input[data-hovercard-id=\"subject\"]",
   "input[placeholder*=\"موضوع\"]"]

/-- Per-selector outcome for the `_fill_subject` selector loop
(mailer.py 350-426).  The click/focus/wait attempts of lines 363-389
never change the control flow (every fallback ends with success=True),
so they carry no field here.  `readback1` is the `input_value` call at
line 400 (`none` = raised, which the `except` at 420 turns into
`continue`); the type fallback of lines 408-418 runs only when
`readback1` returned an unverified value. -/
structure SubjectAttempt where
  found : Bool
  clearOk : Bool
  fillOk : Bool
  readback1 : Option String
  evalClearOk : Bool
  typeOk : Bool
  readback2 : Option String
  deriving DecidableEq, Repr

/-- One iteration of the `_fill_subject` selector loop: the element must
be present and the clear + fill must not raise; then either the first
readback verifies, or (the first readback returned but did not verify)
the type fallback runs with its own verified readback. -/
def subject_readback1_check (subject : String) (a : SubjectAttempt) :
    Option String → Bool
  | none => false
  | some v =>
    verifiesValue subject v ||
    (a.evalClearOk && a.typeOk &&
      readbackCheck (verifiesValue subject) a.readback2)

def subject_attempt_result (subject : String) (a : SubjectAttempt) : Bool :=
  a.found && a.clearOk && a.fillOk &&
    subject_readback1_check subject a a.readback1

def fill_subject_loop (subject : String) (env : String → SubjectAttempt) :
    List String → Bool
  | [] => false
  | s :: rest =>
    if subject_attempt_result subject (env s) then true
    else fill_subject_loop subject env rest

/-- Model of `_fill_subject` (mailer.py 289-429): first the Tab-navigation phase
over `range(1, 5)` against the first four selectors, then the selector
loop. -/
def fill_subject (subject : String) (steps : Nat → TabStep)
    (env : String → SubjectAttempt) : Bool :=
  if tab_loop (verifiesValue subject) steps (subject_selectors.take 4) [1, 2, 3, 4] then
    true
  else fill_subject_loop subject env subject_selectors

/- ---------------------------------------------------------------------
   `_fill_body` (mailer.py 431-577)
   --------------------------------------------------------------------- -/

/-- Body selector list (mailer.py 438-453). -/
def body_selectors : List String :=
  ["div[aria-label=\"متن پیام\"]",
   "div.Am.aiL.Al.editable.LW-avf.tS-tW",
   "div[aria-label=\"Message Body\"]",
   "div[role=\"textbox\"][aria-label*=\"Message\"]",
   "div[contenteditable=\"true\"][aria-label*=\"Message\"]",
   "div[g_editable=\"true\"]",
   "div[aria-label*=\"Message Body\"]",
   "div[contenteditable=\"true\"]",
   "div[role=\"textbox\"]",
   "div[contenteditable=\"true\"][role=\"textbox\"]",
   "div[contenteditable=\"true\"].editable"]

/-- Per-selector outcome for the `_fill_body` selector loop (mailer.py
492-574).  The click/focus attempts of lines 505-522 do not gate the
fill, so they carry no field.  The fill cascade is `fill`, then
evaluate-clear + `type`, then innerHTML injection; if all three raise
the exception reaches the `except` at 568 and the loop continues.
`readback1` is the textContent evaluation at line 544: if it raises
(`EvalResult.err`) the `except` at 564 returns true ("assuming
success"); `readback2` is the post-keyboard readback at 558 (`none` =
raised or null, both fall through). -/
structure BodyAttempt where
  found : Bool
  fillOk : Bool
  evalClearOk : Bool
  typeOk : Bool
  injectOk : Bool
  kbOk : Bool
  readback1 : EvalResult
  readback2 : Option String
  deriving DecidableEq, Repr

/-- One iteration of the `_fill_body` selector loop: the element must be
present and one of the three fill strategies must not raise; then a
raised readback is treated as success, a verified readback is success,
and otherwise the keyboard fallback runs with its own readback. -/
def body_readback1_check (body : String) (a : BodyAttempt) : EvalResult → Bool
  | .err => true
  | .ok content =>
    readbackCheck (verifiesPrefix body) content ||
    (a.kbOk && readbackCheck (verifiesPrefix body) a.readback2)

def body_attempt_result (body : String) (a : BodyAttempt) : Bool :=
  a.found && (a.fillOk || (a.evalClearOk && a.typeOk) || a.injectOk) &&
    body_readback1_check body a a.readback1

def fill_body_loop (body : String) (env : String → BodyAttempt) :
    List String → Bool
  | [] => false
  | s :: rest =>
    if body_attempt_result body (env s) then true
    else fill_body_loop body env rest

/-- Model of `_fill_body` (mailer.py 431-577): the Tab phase runs over
`range(1, 4)` against the first four selectors with the prefix check,
then the selector loop. -/
def fill_body (body : String) (steps : Nat → TabStep)
    (env : String → BodyAttempt) : Bool :=
  if tab_loop (verifiesPrefix body) steps (body_selectors.take 4) [1, 2, 3] then
    true
  else fill_body_loop body env body_selectors

/- ---------------------------------------------------------------------
   `_click_send` (mailer.py 579-644)
   --------------------------------------------------------------------- -/

/-- Send selector list (mailer.py 583-599). -/
def send_selectors : List String :=
  ["div[role=\"button\"][aria-label*=\"ارسال\"]",
   "div[aria-label=\"ارسال\"]",
   "div[data-tooltip*=\"ارسال\"]",
   "div[role=\"button\"][aria-label*=\"Send\"]",
   "div[aria-label=\"Send\"]",
   "div[data-tooltip*=\"Send\"]",
   "div[aria-label*=\"Send\"]",
   "div.T-I.J-J5-Ji.aoO.v7.T-I-atl.L3",
   "div[jsaction*=\"send\"]",
   "button[type=\"submit\"]",
   "div[role=\"button\"]:has-text(\"Send\")",
   "div[role=\"button\"]:has-text(\"ارسال\")"]

/-- Per-selector outcome for `_click_send` (mailer.py 601-641):
whether the element was found, whether the click raised, and the
outcomes of the five confirmation-indicator waits (mailer.py 619-633). -/
structure SendAttempt where
  found : Bool
  clickOk : Bool
  indicators : List Bool
  deriving DecidableEq, Repr

/-- One `_click_send` selector iteration: once a found element is
clicked successfully the function returns true whether or not any
confirmation indicator was detected (mailer.py 627-637). -/
def send_attempt_result (a : SendAttempt) : Option Bool :=
  if !a.found then none
  else if !a.clickOk then none
  else if a.indicators.any (· = true) then some true
  else some true

def click_send_loop (env : String → SendAttempt) : List String → Bool
  | [] => false
  | s :: rest =>
    match send_attempt_result (env s) with
    | some b => b
    | none => click_send_loop env rest

def click_send (env : String → SendAttempt) : Bool :=
  click_send_loop env send_selectors

/- ---------------------------------------------------------------------
   `send_email` (mailer.py 112-153)
   --------------------------------------------------------------------- -/

/-- Outcome of one helper step inside `send_email`: it returned a
boolean, or it raised (the `except` at mailer.py 151 returns False). -/
inductive StepResult
  | ok (b : Bool)
  | exn
  deriving DecidableEq, Repr

/-- Outcomes of the five helpers called by `send_email`. -/
structure SendSteps where
  compose : StepResult
  recipient : StepResult
  subject : StepResult
  body : StepResult
  send : StepResult
  deriving DecidableEq, Repr

/-- Step identifiers, used to record which helpers actually ran. -/
inductive SendStep
  | compose
  | recipient
  | subject
  | body
  | send
  deriving DecidableEq, Repr

/-- Model of `send_email` (mailer.py 112-153): the guard at 121-123, then the
five helpers in sequence, each aborting the whole send when it returns
False or raises.  Alongside the boolean result we return the list of
steps that were executed, so the sequencing is observable. -/
def send_email (connected hasPage : Bool) (st : SendSteps) : Bool × List SendStep :=
  if !(connected && hasPage) then (false, [])
  else
    match st.compose with
    | .exn => (false, [.compose])
    | .ok false => (false, [.compose])
    | .ok true =>
      match st.recipient with
      | .exn => (false, [.compose, .recipient])
      | .ok false => (false, [.compose, .recipient])
      | .ok true =>
        match st.subject with
        | .exn => (false, [.compose, .recipient, .subject])
        | .ok false => (false, [.compose, .recipient, .subject])
        | .ok true =>
          match st.body with
          | .exn => (false, [.compose, .recipient, .subject, .body])
          | .ok false => (false, [.compose, .recipient, .subject, .body])
          | .ok true =>
            match st.send with
            | .exn => (false, [.compose, .recipient, .subject, .body, .send])
            | .ok b => (b, [.compose, .recipient, .subject, .body, .send])

/- ---------------------------------------------------------------------
   Operating-system state shared by the launcher model
   --------------------------------------------------------------------- -/

/-- An entry of the OS process table (what `psutil.process_iter` yields:
pid, name, command line). -/
structure ProcInfo where
  pid : Nat
  name : String
  cmdline : List String
  deriving DecidableEq, Repr

/-- OS state threaded through the launcher: the temp directories that
exist on disk (identified by mkdtemp prefix and a freshness serial),
the mkdtemp freshness counter, the process table and the next pid. -/
structure SysState where
  tempDirs : List (String × Nat)
  tempCounter : Nat
  processes : List ProcInfo
  nextPid : Nat
  deriving DecidableEq, Repr

/-- Model of `tempfile.mkdtemp(prefix=p)`: creates a fresh directory on disk and
returns its name.  Freshness is modelled by the monotone serial. -/
def mkdtemp (p : String) (st : SysState) : (String × Nat) × SysState :=
  ((p, st.tempCounter),
   { st with tempDirs := (p, st.tempCounter) :: st.tempDirs,
             tempCounter := st.tempCounter + 1 })

/-- The on-disk name of a temp directory (prefix followed by the random
suffix, rendered from the serial). -/
def dirName (d : String × Nat) : String :=
  d.1 ++ toString d.2

/- ---------------------------------------------------------------------
   `BrowserLauncher._find_browser_executable` (launchers.py 56-109)
   --------------------------------------------------------------------- -/

/-- A directory entry seen by the Chrome profile scan (launchers.py
254-262): its name, whether it is a directory, and whether it contains
a Preferences file. -/
structure ChromeDirEntry where
  name : String
  isDir : Bool
  hasPreferences : Bool
  deriving DecidableEq, Repr

/-- Filesystem/platform facts the constructor and the profile scans
consult: `platform.system().lower()`, `os.path.exists`, the result of
the `which google-chrome` probe (`none` = nonzero exit or raised),
whether the original profile root exists, and the scan results
(`none` = the scan raised an IO error). -/
structure FsEnv where
  osName : String
  pathExists : String → Bool
  whichChrome : Option String
  dirExists : Bool
  chromeListing : Option (List ChromeDirEntry)
  firefoxIni : Option (List String)

/-- Well-known Chrome install paths on Linux (launchers.py 62-67). -/
def chrome_linux_paths : List String :=
  ["/usr/bin/google-chrome",
   "/usr/bin/google-chrome-stable",
   "/usr/local/bin/google-chrome",
   "/snap/bin/google-chrome"]

/-- Well-known Chrome install paths on Windows (launchers.py 78-82,
with the environment-variable expansion folded into the path oracle). -/
def chrome_windows_paths : List String :=
  ["%ProgramFiles%\\Google\\Chrome\\Application\\chrome.exe",
   "%ProgramFiles(x86)%\\Google\\Chrome\\Application\\chrome.exe",
   "%LocalAppData%\\Google\\Chrome\\Application\\chrome.exe"]

/-- Well-known Firefox install paths on Linux (launchers.py 88-93). -/
def firefox_linux_paths : List String :=
  ["/usr/bin/firefox",
   "/usr/bin/firefox-esr",
   "/usr/local/bin/firefox",
   "/snap/bin/firefox"]

/-- Well-known Firefox install paths on Windows (launchers.py 95-98). -/
def firefox_windows_paths : List String :=
  ["%ProgramFiles%\\Mozilla Firefox\\firefox.exe",
   "%ProgramFiles(x86)%\\Mozilla Firefox\\firefox.exe"]

/-- First existing path of the candidate list (launchers.py 105-109). -/
def firstExisting (pathExists : String → Bool) : List String → Option String
  | [] => none
  | p :: rest => if pathExists p then some p else firstExisting pathExists rest

/-- Model of `_find_browser_executable` (launchers.py 56-109): build the per-OS
candidate list (for Chrome on Linux a nonempty `which` hit is inserted
at the front), return the first existing path, `none` otherwise. -/
def find_browser_executable (cfg : BrowserConfig) (env : FsEnv) : Option String :=
  match cfg.browser_name with
  | .chrome =>
    if env.osName = "linux" then
      let base := chrome_linux_paths
      let paths :=
        match env.whichChrome with
        | some s => if s ≠ "" then s :: base else base
        | none => base
      firstExisting env.pathExists paths
    else if env.osName = "windows" then
      firstExisting env.pathExists chrome_windows_paths
    else none
  | .firefox =>
    if env.osName = "linux" then
      firstExisting env.pathExists firefox_linux_paths
    else if env.osName = "windows" then
      firstExisting env.pathExists firefox_windows_paths
    else none

/-- Model of `_get_original_profile_dir` (launchers.py 111-127): the well-known
per-OS/browser profile root, or a ValueError for other platforms. -/
def get_original_profile_dir (cfg : BrowserConfig) (env : FsEnv) : Except String String :=
  match cfg.browser_name with
  | .chrome =>
    if env.osName = "linux" then .ok "~/.config/google-chrome"
    else if env.osName = "windows" then
      .ok "~/AppData/Local/Google/Chrome/User Data"
    else .error ("Unsupported browser/OS combination: chrome/" ++ env.osName)
  | .firefox =>
    if env.osName = "linux" then .ok "~/.mozilla/firefox"
    else if env.osName = "windows" then
      .ok "~/AppData/Roaming/Mozilla/Firefox/Profiles"
    else .error ("Unsupported browser/OS combination: firefox/" ++ env.osName)

/-- The mkdtemp prefix used by `_get_automation_profile_dir`
(launchers.py 129-137). -/
def automation_prefix_of : BrowserType → String
  | .chrome => "chrome-automation-"
  | .firefox => "firefox-automation-"

/- ---------------------------------------------------------------------
   `BrowserLauncher.__init__` (launchers.py 27-54)
   --------------------------------------------------------------------- -/

/-- The launcher's instance state after construction. -/
structure Launcher where
  config : BrowserConfig
  debug_port : Nat
  browser_path : String
  original_profile_dir : String
  automation_profile_dir : String × Nat
  browser_process : Option Nat
  playwright : Bool
  browser : Bool
  context : Bool
  deriving DecidableEq, Repr

/-- Model of `__init__` (launchers.py 27-54): the OS and browser support checks,
then executable resolution (a missing executable raises *here*, before
any directory is created), then the profile root, and only then the
mkdtemp call that creates the automation profile directory.  The pair
result makes the state visible on every path: a raised constructor
leaves the OS state untouched. -/
def launcher_init (cfg : BrowserConfig) (env : FsEnv) (st : SysState) :
    Except String Launcher × SysState :=
  if cfg.os_type ≠ OSType.linux ∧ cfg.os_type ≠ OSType.windows then
    (.error "Unsupported operating system", st)
  else if cfg.browser_name ≠ BrowserType.chrome ∧ cfg.browser_name ≠ BrowserType.firefox then
    (.error "Unsupported browser", st)
  else
    match find_browser_executable cfg env with
    | none =>
      (.error ("Could not find " ++ cfg.browser_name.str ++ " executable"), st)
    | some path =>
      match get_original_profile_dir cfg env with
      | .error e => (.error e, st)
      | .ok orig =>
        let (dir, st') := mkdtemp (automation_prefix_of cfg.browser_name) st
        (.ok { config := cfg
               debug_port := 9222
               browser_path := path
               original_profile_dir := orig
               automation_profile_dir := dir
               browser_process := none
               playwright := false
               browser := false
               context := false }, st')

/- ---------------------------------------------------------------------
   Killing browser instances
   --------------------------------------------------------------------- -/

/-- Browser process names (launchers.py 277-281 and
process_managers.py 144, 211). -/
def browser_process_names : BrowserType → List String
  | .chrome => ["chrome", "google-chrome", "google-chrome-stable"]
  | .firefox => ["firefox", "firefox-esr"]

/-- The name test `any(name in proc.info['name'].lower() for name in process_names)`
(launchers.py 285). -/
def matchesBrowserName (names : List String) (procName : String) : Bool :=
  names.any (fun n => strContains (strLower procName) n)

/-- The per-argument test `any(f'--remote-debugging-port={port}' in arg for arg in cmdline)`
(launchers.py 287): a substring test against each argument. -/
def advertisesPortArg (port : Nat) (cmdline : List String) : Bool :=
  cmdline.any (fun arg => strContains arg ("--remote-debugging-port=" ++ toString port))

/-- Model of `_kill_existing_browser_instances` (launchers.py 274-294): kill the
processes that match the browser's names and whose command line passes
the port substring test; everything else survives. -/
def kill_existing_browser_instances (bt : BrowserType) (port : Nat)
    (st : SysState) : SysState :=
  { st with processes :=
      st.processes.filter (fun p =>
        !(matchesBrowserName (browser_process_names bt) p.name &&
          advertisesPortArg port p.cmdline)) }

/-- The name-match of `kill_existing_instances` (process_managers.py
53-57): empty name or cmdline is skipped, and both sides are lowered
(`name.lower() in proc_info['name'].lower()`). -/
def pm_matches (names : List String) (p : ProcInfo) : Bool :=
  (p.name ≠ "") && (p.cmdline ≠ []) &&
    names.any (fun n => strContains (strLower p.name) (strLower n))

/-- The port filter of `kill_existing_instances` (process_managers.py
59-62): when a port is supplied, the joined command line must contain
the flag text as a substring. -/
def pm_port_match (port : Option Nat) (p : ProcInfo) : Bool :=
  match port with
  | none => true
  | some pt => strContains (joinSpace p.cmdline) ("--remote-debugging-port=" ++ toString pt)

/-- Model of `BaseBrowserProcessManager.kill_existing_instances`
(process_managers.py 42-88): terminate (escalating to kill) every
matching process; return whether anything was killed. -/
def kill_existing_instances (names : List String) (port : Option Nat)
    (st : SysState) : Bool × SysState :=
  let doomed := st.processes.filter (fun p => pm_matches names p && pm_port_match port p)
  (!doomed.isEmpty,
   { st with processes :=
       st.processes.filter (fun p => !(pm_matches names p && pm_port_match port p)) })

/- ---------------------------------------------------------------------
   `terminate` (launchers.py 526-555)
   --------------------------------------------------------------------- -/

/-- Model of `terminate` (launchers.py 526-555): stop playwright and null the
handles, terminate/kill the tracked subprocess when present, then kill
any same-port sibling instances.  The automation profile directory is
not touched. -/
def terminate (L : Launcher) (st : SysState) : Launcher × SysState :=
  let L1 := { L with playwright := false, browser := false, context := false }
  let st1 :=
    match L1.browser_process with
    | some pid => { st with processes := st.processes.filter (fun p => p.pid ≠ pid) }
    | none => st
  let L2 := { L1 with browser_process := none }
  let st2 := kill_existing_browser_instances L2.config.browser_name L2.debug_port st1
  (L2, st2)

/- ---------------------------------------------------------------------
   Launch argument vectors (launchers.py 367-402)
   --------------------------------------------------------------------- -/

/-- Model of `_build_chrome_args` (launchers.py 367-385). -/
def build_chrome_args (L : Launcher) : List String :=
  [L.browser_path,
   "--remote-debugging-port=" ++ toString L.debug_port,
   "--user-data-dir=" ++ dirName L.automation_profile_dir,
   "--profile-directory=Default",
   "--no-first-run",
   "--disable-default-apps",
   "--disable-features=VizDisplayCompositor",
   "--disable-background-timer-throttling",
   "--disable-backgrounding-occluded-windows",
   "--disable-renderer-backgrounding"] ++
  (if L.config.headless then ["--headless=new"] else [])

/-- Model of `_build_firefox_args` (launchers.py 387-402): note the two-token
form of the debug-port flag. -/
def build_firefox_args (L : Launcher) : List String :=
  [L.browser_path,
   "--remote-debugging-port", toString L.debug_port,
   "--profile", dirName L.automation_profile_dir ++ "/automation-profile",
   "--no-remote",
   "--new-instance"] ++
  (if L.config.headless then ["--headless"] else [])

def build_args (L : Launcher) : List String :=
  match L.config.browser_name with
  | .chrome => build_chrome_args L
  | .firefox => build_firefox_args L

/- ---------------------------------------------------------------------
   `_launch_browser_with_debug_port` (launchers.py 304-365)
   --------------------------------------------------------------------- -/

/-- Environment for the launch step: the outcome of each
`_is_debug_port_available` poll (launchers.py 296-302 — an HTTP GET on
`localhost:port/json/version` returning 200 yields True), and whether
the spawned process is still running when the failure handler checks
`poll()` (launchers.py 362). -/
structure LaunchEnv where
  pollOk : Nat → Bool
  spawnedRunning : Bool

/-- Result of the launch step: whether it returned normally or raised,
whether a subprocess was spawned, the tracked process handle, and the
resulting OS state. -/
structure LaunchStepResult where
  ok : Bool
  spawned : Bool
  proc : Option Nat
  st : SysState
  deriving Repr

/-- Model of `_launch_browser_with_debug_port` (launchers.py 304-365): after the
executable guard it kills same-port same-browser instances, waits,
sets up the automation profile (writes inside the already-created temp
directory), builds the argument vector and then spawns the subprocess
unconditionally — there is no port-availability check between the kill
and the spawn.  Afterwards it polls `_is_debug_port_available` up to
20 times; exhaustion raises, and the handler terminates the spawned
process when it is still running. -/
def launch_browser_with_debug_port (L : Launcher) (env : LaunchEnv)
    (st : SysState) : LaunchStepResult :=
  if L.browser_path = "" then
    { ok := false, spawned := false, proc := none, st := st }
  else
    let st1 := kill_existing_browser_instances L.config.browser_name L.debug_port st
    let args := build_args L
    let pid := st1.nextPid
    let spawned : ProcInfo := { pid := pid, name := L.browser_path, cmdline := args }
    let st2 := { st1 with processes := spawned :: st1.processes, nextPid := pid + 1 }
    if (List.range 20).any env.pollOk then
      { ok := true, spawned := true, proc := some pid, st := st2 }
    else
      let st3 :=
        if env.spawnedRunning then
          { st2 with processes := st2.processes.filter (fun p => p.pid ≠ pid) }
        else st2
      { ok := false, spawned := true, proc := none, st := st3 }

/- ---------------------------------------------------------------------
   `launch` (launchers.py 404-457)
   --------------------------------------------------------------------- -/

/-- Attachment environment: whether the CDP connect succeeded and
whether the browser already had a context. -/
structure AttachEnv where
  cdpOk : Bool
  hasContexts : Bool

/-- Result of `launch`: the returned boolean, the updated launcher, the
OS state, and whether a browser subprocess was spawned during the
call. -/
structure LaunchResult where
  success : Bool
  launcher : Launcher
  st : SysState
  spawned : Bool
  deriving Repr

/-- Model of `launch` (launchers.py 404-457): optionally override the debug port
(`if debug_port:` — Python truthiness, so 0 is ignored), run the
subprocess launch step, then start playwright and attach over CDP; any
exception runs `close()` (which only nulls the in-process handles) and
returns False. -/
def launch (L : Launcher) (debug_port : Option Nat) (lenv : LaunchEnv)
    (aenv : AttachEnv) (st : SysState) : LaunchResult :=
  let L0 :=
    match debug_port with
    | some p => if p ≠ 0 then { L with debug_port := p } else L
    | none => L
  let r := launch_browser_with_debug_port L0 lenv st
  if !r.ok then
    { success := false
      launcher := { L0 with browser_process := r.proc, playwright := false,
                            browser := false, context := false }
      st := r.st
      spawned := r.spawned }
  else
    let L1 := { L0 with browser_process := r.proc, playwright := true }
    if !aenv.cdpOk then
      { success := false
        launcher := { L1 with playwright := false, browser := false, context := false }
        st := r.st
        spawned := r.spawned }
    else
      { success := true
        launcher := { L1 with browser := true, context := true }
        st := r.st
        spawned := r.spawned }

/- ---------------------------------------------------------------------
   Profile listing (launchers.py 249-272, 557-591)
   --------------------------------------------------------------------- -/

/-- The validity predicate of the Chrome profile scan (launchers.py
256-261): a directory containing a Preferences file, outside the
deny-list, and without "automation" in its lowered name. -/
def chrome_profile_valid (e : ChromeDirEntry) : Bool :=
  e.isDir && e.hasPreferences &&
    !(e.name = "System Profile" || e.name = "Guest Profile") &&
    !(strContains (strLower e.name) "automation")

/-- The names the Chrome scan discovers: valid entries of the listing,
in scan order (empty when the profile root does not exist). -/
def chrome_discovered (dirExists : Bool) (entries : List ChromeDirEntry) : List String :=
  if dirExists then (entries.filter chrome_profile_valid).map (·.name) else []

/-- Model of `_get_chrome_profiles_from_original` (launchers.py 249-272): scan
the original profile root (a raised scan, `none`, degrades to the
single default entry), then guarantee "Default" by inserting it at the
front only when it was not discovered. -/
def get_chrome_profiles_from_original (env : FsEnv) : List String :=
  match env.chromeListing with
  | none => ["Default"]
  | some entries =>
    let profiles := chrome_discovered env.dirExists entries
    if "Default" ∈ profiles then profiles else "Default" :: profiles

/-- The validity predicate of the Firefox profile scan (launchers.py
578-581), applied to the `Name=` values of profiles.ini. -/
def firefox_profile_valid (nm : String) : Bool :=
  !(nm = "System Profile" || nm = "default-release") &&
    !(strContains (strLower nm) "automation")

/-- The names the Firefox scan discovers: valid `Name=` values of
profiles.ini, in file order (empty when the profile root or the ini
file does not exist). -/
def firefox_discovered (dirExists : Bool) (names : List String) : List String :=
  if dirExists then names.filter firefox_profile_valid else []

/-- Model of `_get_firefox_profiles_from_original` (launchers.py 566-591):
filter the profiles.ini names (a raised scan degrades to the single
default entry), then guarantee a lowercase "default" by a
case-insensitive membership test. -/
def get_firefox_profiles_from_original (env : FsEnv) : List String :=
  match env.firefoxIni with
  | none => ["default"]
  | some names =>
    let profiles := firefox_discovered env.dirExists names
    if "default" ∈ profiles.map strLower then profiles
    else "default" :: profiles

/-- Model of `get_available_profiles` (launchers.py 557-564). -/
def get_available_profiles (bt : BrowserType) (env : FsEnv) : List String :=
  match bt with
  | .chrome => get_chrome_profiles_from_original env
  | .firefox => get_firefox_profiles_from_original env

/-- The listing seen by the Chrome scan has pairwise-distinct entry
names (what `os.listdir` guarantees); trivial when the scan raised. -/
def chromeListingNodup (env : FsEnv) : Prop :=
  match env.chromeListing with
  | none => True
  | some l => (l.map ChromeDirEntry.name).Nodup

/-- The scan did not discover an entry named "Default" (trivially so
when the scan raised). -/
def chromeDefaultNotDiscovered (env : FsEnv) : Prop :=
  match env.chromeListing with
  | none => True
  | some l => "Default" ∉ chrome_discovered env.dirExists l

/-- The profiles.ini names are pairwise distinct even after lowering
(no case-insensitive duplicates); trivial when the scan raised. -/
def firefoxNamesLowerNodup (env : FsEnv) : Prop :=
  match env.firefoxIni with
  | none => True
  | some names => (names.map strLower).Nodup

/-- The Firefox scan did not discover any name equal to "default" up to
case (trivially so when the scan raised). -/
def firefoxDefaultNotDiscovered (env : FsEnv) : Prop :=
  match env.firefoxIni with
  | none => True
  | some names => "default" ∉ (firefox_discovered env.dirExists names).map strLower

/-- A command line that actually advertises remote-debugging port `p`:
the chromium one-token flag carrying exactly this value, or the firefox
two-token form.  This follows the spec's words ("processes whose command
line advertises that same debug port") and is compared against the
substring test the code performs. -/
def spec_advertises_port (cmdline : List String) (p : Nat) : Bool :=
  cmdline.any (fun arg => arg = "--remote-debugging-port=" ++ toString p) ||
  (cmdline.zip cmdline.tail).any
    (fun q => q.1 = "--remote-debugging-port" && q.2 = toString p)

/- ---------------------------------------------------------------------
   Concrete inputs used by witnesses and counterexamples
   --------------------------------------------------------------------- -/

/-- A Tab phase that aborts immediately (the first Tab press raises). -/
def noTabSteps : Nat → TabStep :=
  fun _ => { pressOk := false, active := false,
             inner := fun _ => { found := false, isFocused := false,
                                 typeOk := false, readback := none } }

/-- Witness page for `_fill_recipient`: every selector resolves to an
element whose fill is verified by the readback. -/
def w1REnv : String → RecipientAttempt :=
  fun _ => { found := true, clickOk := true, clearOk := true, fillOk := true,
             readback := some "a@b" }

/-- Witness page for `_fill_subject`: the selector loop succeeds with a
verified readback. -/
def w1SEnv : String → SubjectAttempt :=
  fun _ => { found := true, clearOk := true, fillOk := true,
             readback1 := some "hi", evalClearOk := false, typeOk := false,
             readback2 := none }

/-- Witness page for `_fill_body`: a verified readback on the first
selector. -/
def w2BEnv : String → BodyAttempt :=
  fun _ => { found := true, fillOk := true, evalClearOk := false,
             typeOk := false, injectOk := false, kbOk := false,
             readback1 := EvalResult.ok (some "hello"), readback2 := none }

/-- Counterexample page for `_fill_body`: the element is found and
filled, but the verification readback itself raises — no readback value
is ever produced by any selector. -/
def c2BEnv : String → BodyAttempt :=
  fun _ => { found := true, fillOk := true, evalClearOk := false,
             typeOk := false, injectOk := false, kbOk := false,
             readback1 := EvalResult.err, readback2 := none }

/-- Witness step outcomes for `send_email`: the recipient fill fails. -/
def w7Steps : SendSteps :=
  { compose := .ok true, recipient := .ok false, subject := .ok true,
    body := .ok true, send := .ok true }

/-- Witness page for `_click_send`: the button is found and clicked but
no confirmation indicator ever appears. -/
def w8Env : String → SendAttempt :=
  fun _ => { found := true, clickOk := true,
             indicators := [false, false, false, false, false] }

/-- Chrome-on-Linux configuration used by launcher-side witnesses and
counterexamples. -/
def cChromeCfg : BrowserConfig :=
  { browser_name := .chrome, headless := true, os_type := .linux }

/-- A freshly constructed launcher instance for Chrome on Linux. -/
def c4Launcher : Launcher :=
  { config := cChromeCfg, debug_port := 9222,
    browser_path := "/usr/bin/google-chrome",
    original_profile_dir := "~/.config/google-chrome",
    automation_profile_dir := ("chrome-automation-", 0),
    browser_process := none, playwright := false, browser := false,
    context := false }

/-- A launcher with a live session: attached handles and a tracked
subprocess. -/
def c3Launcher : Launcher :=
  { config := cChromeCfg, debug_port := 9222,
    browser_path := "/usr/bin/google-chrome",
    original_profile_dir := "~/.config/google-chrome",
    automation_profile_dir := ("chrome-automation-", 0),
    browser_process := some 5, playwright := true, browser := true,
    context := true }

/-- OS state in which `c3Launcher` is live: its temp directory exists
and its subprocess is in the process table. -/
def c3St : SysState :=
  { tempDirs := [("chrome-automation-", 0)], tempCounter := 1,
    processes := [{ pid := 5, name := "/usr/bin/google-chrome",
                    cmdline := build_chrome_args c3Launcher }],
    nextPid := 6 }

/-- A foreign (non-browser) process holding the debug port and serving
HTTP 200 on it. -/
def c4Occupant : ProcInfo :=
  { pid := 1, name := "my-port-server",
    cmdline := ["my-port-server", "--remote-debugging-port=9222"] }

/-- OS state with the foreign occupant on the requested port. -/
def c4St : SysState :=
  { tempDirs := [("chrome-automation-", 0)], tempCounter := 1,
    processes := [c4Occupant], nextPid := 2 }

/-- Launch environment where every `_is_debug_port_available` probe gets
an HTTP 200 answer (the port is occupied and responding). -/
def c4LaunchEnv : LaunchEnv := { pollOk := fun _ => true, spawnedRunning := true }

def c4AttachEnv : AttachEnv := { cdpOk := true, hasContexts := true }

/-- Launch environment where the debug endpoint never answers. -/
def w4LaunchEnv : LaunchEnv := { pollOk := fun _ => false, spawnedRunning := true }

/-- Filesystem without any browser executable. -/
def c9Env : FsEnv :=
  { osName := "linux", pathExists := fun _ => false, whichChrome := none,
    dirExists := false, chromeListing := none, firefoxIni := none }

/-- Pristine OS state: no temp directories, no processes. -/
def c9St : SysState :=
  { tempDirs := [], tempCounter := 0, processes := [], nextPid := 0 }

/-- Filesystem with Chrome installed at its first well-known path. -/
def c10Env : FsEnv :=
  { osName := "linux", pathExists := fun p => p == "/usr/bin/google-chrome",
    whichChrome := none, dirExists := false, chromeListing := none,
    firefoxIni := none }

def c10St : SysState :=
  { tempDirs := [], tempCounter := 0, processes := [], nextPid := 0 }

/-- The launcher `launcher_init` produces from `c10Env` and `c10St`. -/
def c10Launcher : Launcher :=
  { config := cChromeCfg, debug_port := 9222,
    browser_path := "/usr/bin/google-chrome",
    original_profile_dir := "~/.config/google-chrome",
    automation_profile_dir := ("chrome-automation-", 0),
    browser_process := none, playwright := false, browser := false,
    context := false }

/-- The OS state after that construction: the fresh temp directory
exists. -/
def c10StAfter : SysState :=
  { tempDirs := [("chrome-automation-", 0)], tempCounter := 1,
    processes := [], nextPid := 0 }

/-- A profile root whose scan discovers "Profile 1" first and "Default"
second. -/
def c5Env : FsEnv :=
  { osName := "linux", pathExists := fun _ => false, whichChrome := none,
    dirExists := true,
    chromeListing := some
      [{ name := "Profile 1", isDir := true, hasPreferences := true },
       { name := "Default", isDir := true, hasPreferences := true }],
    firefoxIni := none }

/-- A profile root whose scan discovers only "Profile 1". -/
def c5wEnv : FsEnv :=
  { osName := "linux", pathExists := fun _ => false, whichChrome := none,
    dirExists := true,
    chromeListing := some
      [{ name := "Profile 1", isDir := true, hasPreferences := true }],
    firefoxIni := none }

/-- A Firefox profiles.ini that declares a single profile named
"Default" (capitalised). -/
def c5fEnvA : FsEnv :=
  { osName := "linux", pathExists := fun _ => false, whichChrome := none,
    dirExists := true, chromeListing := none,
    firefoxIni := some ["Default"] }

/-- A Firefox profiles.ini that declares profiles "Default" and
"default" (distinct exact names). -/
def c5fEnvB : FsEnv :=
  { osName := "linux", pathExists := fun _ => false, whichChrome := none,
    dirExists := true, chromeListing := none,
    firefoxIni := some ["Default", "default"] }

/-- A Chrome process advertising remote-debugging port 9222. -/
def c6Proc : ProcInfo :=
  { pid := 7, name := "chrome",
    cmdline := ["chrome", "--remote-debugging-port=9222"] }

def c6St : SysState :=
  { tempDirs := [], tempCounter := 0, processes := [c6Proc], nextPid := 8 }

/- ---------------------------------------------------------------------
   Helper lemmas about the fill loops
   --------------------------------------------------------------------- -/

theorem readbackCheck_verified {check : String → Bool} {o : Option String}
    (h : readbackCheck check o = true) : ∃ v, o = some v ∧ check v = true := by
  cases o with
  | some v => exact ⟨v, rfl, h⟩
  | none => exact Bool.noConfusion h

theorem recipient_attempt_verified {recipient : String} {a : RecipientAttempt}
    (h : recipient_attempt_result recipient a = true) :
    ∃ v, a.readback = some v ∧ verifiesValue recipient v = true := by
  unfold recipient_attempt_result at h
  simp only [Bool.and_eq_true] at h
  exact readbackCheck_verified h.2

theorem fill_recipient_loop_verified {recipient : String}
    {env : String → RecipientAttempt} :
    ∀ {sels : List String}, fill_recipient_loop recipient env sels = true →
      ∃ s ∈ sels, ∃ v, (env s).readback = some v ∧ verifiesValue recipient v = true := by
  intro sels
  induction sels with
  | nil => intro h; exact Bool.noConfusion h
  | cons s rest ih =>
    intro h
    unfold fill_recipient_loop at h
    split at h
    · next hres =>
      obtain ⟨v, hv, hvv⟩ := recipient_attempt_verified hres
      exact ⟨s, List.mem_cons_self s rest, v, hv, hvv⟩
    · obtain ⟨t, ht, hv⟩ := ih h
      exact ⟨t, List.mem_cons_of_mem s ht, hv⟩

theorem tab_inner_result_verified {check : String → Bool} {t : TabInner}
    (h : tab_inner_result check t = true) :
    ∃ v, t.readback = some v ∧ check v = true := by
  unfold tab_inner_result at h
  simp only [Bool.and_eq_true] at h
  exact readbackCheck_verified h.2

theorem tab_inner_loop_verified {check : String → Bool} {inner : String → TabInner} :
    ∀ {sels : List String}, tab_inner_loop check inner sels = true →
      ∃ s ∈ sels, ∃ v, (inner s).readback = some v ∧ check v = true := by
  intro sels
  induction sels with
  | nil => intro h; exact Bool.noConfusion h
  | cons s rest ih =>
    intro h
    unfold tab_inner_loop at h
    split at h
    · next hres =>
      obtain ⟨v, hv, hc⟩ := tab_inner_result_verified hres
      exact ⟨s, List.mem_cons_self s rest, v, hv, hc⟩
    · obtain ⟨t, ht, hv⟩ := ih h
      exact ⟨t, List.mem_cons_of_mem s ht, hv⟩

theorem tab_loop_verified {check : String → Bool} {steps : Nat → TabStep}
    {sels : List String} :
    ∀ {ks : List Nat}, tab_loop check steps sels ks = true →
      ∃ k ∈ ks, ∃ s ∈ sels, ∃ v,
        ((steps k).inner s).readback = some v ∧ check v = true := by
  intro ks
  induction ks with
  | nil => intro h; exact Bool.noConfusion h
  | cons k rest ih =>
    intro h
    unfold tab_loop at h
    split at h
    · exact Bool.noConfusion h
    · split at h
      · split at h
        · next hin =>
          obtain ⟨s, hs, v, hv, hc⟩ := tab_inner_loop_verified hin
          exact ⟨k, List.mem_cons_self k rest, s, hs, v, hv, hc⟩
        · obtain ⟨t, ht, rest'⟩ := ih h
          exact ⟨t, List.mem_cons_of_mem k ht, rest'⟩
      · obtain ⟨t, ht, rest'⟩ := ih h
        exact ⟨t, List.mem_cons_of_mem k ht, rest'⟩

theorem subject_readback1_verified {subject : String} {a : SubjectAttempt}
    {o : Option String} (h : subject_readback1_check subject a o = true) :
    ∃ v, (o = some v ∨ a.readback2 = some v) ∧ verifiesValue subject v = true := by
  cases o with
  | none => exact Bool.noConfusion h
  | some v =>
    unfold subject_readback1_check at h
    rw [Bool.or_eq_true] at h
    rcases h with hc | hrest
    · exact ⟨v, Or.inl rfl, hc⟩
    · simp only [Bool.and_eq_true] at hrest
      obtain ⟨w, hw, hcw⟩ := readbackCheck_verified hrest.2
      exact ⟨w, Or.inr hw, hcw⟩

theorem subject_attempt_verified {subject : String} {a : SubjectAttempt}
    (h : subject_attempt_result subject a = true) :
    ∃ v, (a.readback1 = some v ∨ a.readback2 = some v) ∧
      verifiesValue subject v = true := by
  unfold subject_attempt_result at h
  simp only [Bool.and_eq_true] at h
  exact subject_readback1_verified h.2

theorem fill_subject_loop_verified {subject : String}
    {env : String → SubjectAttempt} :
    ∀ {sels : List String}, fill_subject_loop subject env sels = true →
      ∃ s ∈ sels, ∃ v,
        ((env s).readback1 = some v ∨ (env s).readback2 = some v) ∧
        verifiesValue subject v = true := by
  intro sels
  induction sels with
  | nil => intro h; exact Bool.noConfusion h
  | cons s rest ih =>
    intro h
    unfold fill_subject_loop at h
    split at h
    · next hres =>
      obtain ⟨v, hv, hvv⟩ := subject_attempt_verified hres
      exact ⟨s, List.mem_cons_self s rest, v, hv, hvv⟩
    · obtain ⟨t, ht, hv⟩ := ih h
      exact ⟨t, List.mem_cons_of_mem s ht, hv⟩

theorem body_readback1_verified {body : String} {a : BodyAttempt}
    {r : EvalResult} (h : body_readback1_check body a r = true) :
    (∃ v, (r = EvalResult.ok (some v) ∨ a.readback2 = some v) ∧
       verifiesPrefix body v = true) ∨
    r = EvalResult.err := by
  cases r with
  | err => exact Or.inr rfl
  | ok content =>
    unfold body_readback1_check at h
    rw [Bool.or_eq_true] at h
    rcases h with hc | hrest
    · obtain ⟨v, hv, hcv⟩ := readbackCheck_verified hc
      exact Or.inl ⟨v, Or.inl (by rw [hv]), hcv⟩
    · simp only [Bool.and_eq_true] at hrest
      obtain ⟨w, hw, hcw⟩ := readbackCheck_verified hrest.2
      exact Or.inl ⟨w, Or.inr hw, hcw⟩

theorem body_attempt_verified {body : String} {a : BodyAttempt}
    (h : body_attempt_result body a = true) :
    (∃ v, (a.readback1 = EvalResult.ok (some v) ∨ a.readback2 = some v) ∧
       verifiesPrefix body v = true) ∨
    a.readback1 = EvalResult.err := by
  unfold body_attempt_result at h
  simp only [Bool.and_eq_true] at h
  exact body_readback1_verified h.2

theorem fill_body_loop_verified {body : String} {env : String → BodyAttempt} :
    ∀ {sels : List String}, fill_body_loop body env sels = true →
      (∃ s ∈ sels, ∃ v,
         ((env s).readback1 = EvalResult.ok (some v) ∨ (env s).readback2 = some v) ∧
         verifiesPrefix body v = true) ∨
      (∃ s ∈ sels, (env s).readback1 = EvalResult.err) := by
  intro sels
  induction sels with
  | nil => intro h; exact Bool.noConfusion h
  | cons s rest ih =>
    intro h
    unfold fill_body_loop at h
    split at h
    · next hres =>
      rcases body_attempt_verified hres with ⟨v, hv, hvv⟩ | herr
      · exact Or.inl ⟨s, List.mem_cons_self s rest, v, hv, hvv⟩
      · exact Or.inr ⟨s, List.mem_cons_self s rest, herr⟩
    · rcases ih h with ⟨t, ht, hv⟩ | ⟨t, ht, herr⟩
      · exact Or.inl ⟨t, List.mem_cons_of_mem s ht, hv⟩
      · exact Or.inr ⟨t, List.mem_cons_of_mem s ht, herr⟩

/- ---------------------------------------------------------------------
   Claim C1
   --------------------------------------------------------------------- -/

/-- Claim C1: the recipient and subject fill operations
(`GmailMailer._fill_recipient`, `GmailMailer._fill_subject`) never return
success unless some post-fill readback of the targeted field contained
the intended value as a substring; since both functions are total and
Boolean, exhausting every candidate selector without such a verified
readback therefore yields failure. -/
theorem claim_C1_fill_verified_readback (recipient subject : String)
    (rEnv : String → RecipientAttempt) (steps : Nat → TabStep)
    (sEnv : String → SubjectAttempt) :
    (fill_recipient recipient rEnv = true →
       ∃ s ∈ recipient_selectors, ∃ v,
         (rEnv s).readback = some v ∧ verifiesValue recipient v = true) ∧
    (fill_subject subject steps sEnv = true →
       (∃ k ∈ ([1, 2, 3, 4] : List Nat), ∃ s ∈ subject_selectors.take 4, ∃ v,
          ((steps k).inner s).readback = some v ∧ verifiesValue subject v = true) ∨
       (∃ s ∈ subject_selectors, ∃ v,
          ((sEnv s).readback1 = some v ∨ (sEnv s).readback2 = some v) ∧
          verifiesValue subject v = true)) := by
  constructor
  · intro h
    exact fill_recipient_loop_verified h
  · intro h
    unfold fill_subject at h
    split at h
    · next htab => exact Or.inl (tab_loop_verified htab)
    · exact Or.inr (fill_subject_loop_verified h)

/-- Witness for C1 at a concrete page environment. -/
theorem claim_C1_witness :
    (fill_recipient "a@b" w1REnv = true ∧
      ∃ s ∈ recipient_selectors, ∃ v,
        (w1REnv s).readback = some v ∧ verifiesValue "a@b" v = true) ∧
    (fill_subject "hi" noTabSteps w1SEnv = true ∧
      ((∃ k ∈ ([1, 2, 3, 4] : List Nat), ∃ s ∈ subject_selectors.take 4, ∃ v,
          ((noTabSteps k).inner s).readback = some v ∧ verifiesValue "hi" v = true) ∨
       (∃ s ∈ subject_selectors, ∃ v,
          ((w1SEnv s).readback1 = some v ∨ (w1SEnv s).readback2 = some v) ∧
          verifiesValue "hi" v = true))) :=
  ⟨⟨by decide,
    (claim_C1_fill_verified_readback "a@b" "hi" w1REnv noTabSteps w1SEnv).1 (by decide)⟩,
   ⟨by decide,
    (claim_C1_fill_verified_readback "a@b" "hi" w1REnv noTabSteps w1SEnv).2 (by decide)⟩⟩

/- ---------------------------------------------------------------------
   Claim C2
   --------------------------------------------------------------------- -/

/-- Counterexample to C2: `_fill_body` reports success on a page where
the element is found and filled but the verification readback itself
raises — no selector ever produced any readback value, verified or not
(mailer.py 564-566: "Could not verify content, assuming success"). -/
theorem claim_C2_counterexample :
    fill_body "hello world" noTabSteps c2BEnv = true ∧
    body_selectors.all
      (fun s => ((c2BEnv s).readback1 == EvalResult.err) &&
                ((c2BEnv s).readback2 == none)) = true ∧
    ([1, 2, 3] : List Nat).all (fun k => !(noTabSteps k).pressOk) = true := by
  decide

/-- Claim C2 (amended): when `_fill_body` returns success, either some
readback verified a prefix of the intended content (in the Tab phase or
the selector phase, native or keyboard fallback), or some selector's
verification readback itself raised and success was assumed without any
verification. -/
theorem claim_C2_amended_body_verified_or_assumed (body : String)
    (steps : Nat → TabStep) (env : String → BodyAttempt)
    (h : fill_body body steps env = true) :
    (∃ k ∈ ([1, 2, 3] : List Nat), ∃ s ∈ body_selectors.take 4, ∃ v,
       ((steps k).inner s).readback = some v ∧ verifiesPrefix body v = true) ∨
    (∃ s ∈ body_selectors, ∃ v,
       ((env s).readback1 = EvalResult.ok (some v) ∨ (env s).readback2 = some v) ∧
       verifiesPrefix body v = true) ∨
    (∃ s ∈ body_selectors, (env s).readback1 = EvalResult.err) := by
  unfold fill_body at h
  split at h
  · next htab => exact Or.inl (tab_loop_verified htab)
  · rcases fill_body_loop_verified h with hv | he
    · exact Or.inr (Or.inl hv)
    · exact Or.inr (Or.inr he)

/-- Witness for the amended C2 at a concrete page environment. -/
theorem claim_C2_witness :
    fill_body "hello" noTabSteps w2BEnv = true ∧
    ((∃ k ∈ ([1, 2, 3] : List Nat), ∃ s ∈ body_selectors.take 4, ∃ v,
        ((noTabSteps k).inner s).readback = some v ∧ verifiesPrefix "hello" v = true) ∨
     (∃ s ∈ body_selectors, ∃ v,
        ((w2BEnv s).readback1 = EvalResult.ok (some v) ∨ (w2BEnv s).readback2 = some v) ∧
        verifiesPrefix "hello" v = true) ∨
     (∃ s ∈ body_selectors, (w2BEnv s).readback1 = EvalResult.err)) :=
  ⟨by decide,
   claim_C2_amended_body_verified_or_assumed "hello" noTabSteps w2BEnv (by decide)⟩

/- ---------------------------------------------------------------------
   Claims C7 and C8
   --------------------------------------------------------------------- -/

theorem send_attempt_result_some {a : SendAttempt} {b : Bool}
    (h : send_attempt_result a = some b) : b = true := by
  unfold send_attempt_result at h
  split at h
  · exact Option.noConfusion h
  · split at h
    · exact Option.noConfusion h
    · split at h
      · injection h with h2; exact h2.symm
      · injection h with h2; exact h2.symm

theorem send_attempt_result_click {a : SendAttempt}
    (hf : a.found = true) (hc : a.clickOk = true) :
    send_attempt_result a = some true := by
  unfold send_attempt_result
  rw [hf, hc]
  simp

theorem click_send_loop_of_click {env : String → SendAttempt} :
    ∀ {sels : List String},
      sels.any (fun s => (env s).found && (env s).clickOk) = true →
      click_send_loop env sels = true := by
  intro sels
  induction sels with
  | nil => intro h; exact Bool.noConfusion h
  | cons s rest ih =>
    intro h
    rw [List.any_cons, Bool.or_eq_true] at h
    unfold click_send_loop
    cases hres : send_attempt_result (env s) with
    | some b =>
      have hb : b = true := send_attempt_result_some hres
      simp [hb]
    | none =>
      rcases h with hs | hrest
      · exfalso
        simp only [Bool.and_eq_true] at hs
        have hsome := send_attempt_result_click hs.1 hs.2
        rw [hres] at hsome
        exact Option.noConfusion hsome
      · exact ih hrest

/-- Claim C7: if any field-fill step of `send_email` (compose click,
recipient, subject or body) fails or raises, `_click_send` is never
invoked and the whole send returns failure — no partial email is
submitted. -/
theorem claim_C7_no_partial_send (connected hasPage : Bool) (st : SendSteps)
    (h : st.compose ≠ .ok true ∨ st.recipient ≠ .ok true ∨
         st.subject ≠ .ok true ∨ st.body ≠ .ok true) :
    (send_email connected hasPage st).1 = false ∧
    SendStep.send ∉ (send_email connected hasPage st).2 := by
  cases connected with
  | false => constructor <;> simp [send_email]
  | true =>
    cases hasPage with
    | false => constructor <;> simp [send_email]
    | true =>
      cases hcp : st.compose with
      | exn => constructor <;> simp [send_email, hcp]
      | ok bc =>
        cases bc with
        | false => constructor <;> simp [send_email, hcp]
        | true =>
          cases hrc : st.recipient with
          | exn => constructor <;> simp [send_email, hcp, hrc]
          | ok br =>
            cases br with
            | false => constructor <;> simp [send_email, hcp, hrc]
            | true =>
              cases hsb : st.subject with
              | exn => constructor <;> simp [send_email, hcp, hrc, hsb]
              | ok bs =>
                cases bs with
                | false => constructor <;> simp [send_email, hcp, hrc, hsb]
                | true =>
                  cases hbd : st.body with
                  | exn => constructor <;> simp [send_email, hcp, hrc, hsb, hbd]
                  | ok bb =>
                    cases bb with
                    | false => constructor <;> simp [send_email, hcp, hrc, hsb, hbd]
                    | true =>
                      rcases h with h | h | h | h
                      · exact absurd hcp h
                      · exact absurd hrc h
                      · exact absurd hsb h
                      · exact absurd hbd h

/-- Witness for C7: the recipient fill fails, the send step is never
reached and the send reports failure. -/
theorem claim_C7_witness :
    (w7Steps.compose ≠ .ok true ∨ w7Steps.recipient ≠ .ok true ∨
     w7Steps.subject ≠ .ok true ∨ w7Steps.body ≠ .ok true) ∧
    ((send_email true true w7Steps).1 = false ∧
     SendStep.send ∉ (send_email true true w7Steps).2) :=
  ⟨Or.inr (Or.inl (by decide)),
   claim_C7_no_partial_send true true w7Steps (Or.inr (Or.inl (by decide)))⟩

/-- Claim C8: once `_click_send` finds and successfully clicks a send
button, it returns true even when no confirmation indicator appears
within its short timeout — absence of a send confirmation is never
treated as failure. -/
theorem claim_C8_optimistic_send_success (env : String → SendAttempt)
    (hclick : send_selectors.any (fun s => (env s).found && (env s).clickOk) = true)
    (hnoconf : send_selectors.all
      (fun s => (env s).indicators.all (fun b => !b)) = true) :
    click_send env = true :=
  click_send_loop_of_click hclick

/-- Witness for C8 at a concrete page environment with no confirmation
indicator anywhere. -/
theorem claim_C8_witness :
    send_selectors.any (fun s => (w8Env s).found && (w8Env s).clickOk) = true ∧
    send_selectors.all (fun s => (w8Env s).indicators.all (fun b => !b)) = true ∧
    click_send w8Env = true :=
  ⟨by decide, by decide,
   claim_C8_optimistic_send_success w8Env (by decide) (by decide)⟩

/- ---------------------------------------------------------------------
   Claim C3
   --------------------------------------------------------------------- -/

/-- Counterexample to C3: after `terminate` on a live session, the
session's automation profile directory still exists on disk — the
directory is leaked (launchers.py 526-555 contains no directory
removal). -/
theorem claim_C3_counterexample :
    c3Launcher.automation_profile_dir ∈ c3St.tempDirs ∧
    ((terminate c3Launcher c3St).1).browser_process = none ∧
    c3Launcher.automation_profile_dir ∈ ((terminate c3Launcher c3St).2).tempDirs := by
  decide

/-- Claim C3 (amended): `terminate` nulls the in-process handles and
kills the tracked subprocess and same-port siblings, but it never
removes any temporary profile directory — the set of temp directories
on disk is unchanged on every path. -/
theorem claim_C3_amended_terminate_never_removes_temp_dir
    (L : Launcher) (st : SysState) :
    ((terminate L st).2).tempDirs = st.tempDirs ∧
    ((terminate L st).2).tempCounter = st.tempCounter ∧
    ((terminate L st).1).browser_process = none ∧
    ((terminate L st).1).playwright = false := by
  unfold terminate kill_existing_browser_instances
  cases hbp : L.browser_process <;> simp [hbp]

/- ---------------------------------------------------------------------
   Claim C4
   --------------------------------------------------------------------- -/

/-- Counterexample to C4: a foreign process keeps the requested debug
port (it is not a browser, so the pre-spawn kill does not touch it) and
answers the HTTP probe with 200; `launch` nevertheless spawns a browser
subprocess and returns true — no port-free confirmation precedes the
spawn, and an occupied port is not reported as failure. -/
theorem claim_C4_counterexample :
    (launch c4Launcher none c4LaunchEnv c4AttachEnv c4St).success = true ∧
    (launch c4Launcher none c4LaunchEnv c4AttachEnv c4St).spawned = true ∧
    c4Occupant ∈ (launch c4Launcher none c4LaunchEnv c4AttachEnv c4St).st.processes := by
  refine ⟨rfl, rfl, ?_⟩
  have htail : c4Occupant ∈ [c4Occupant] := List.Mem.head _
  exact List.Mem.tail _ htail

/-- Claim C4 (amended): the launch step kills same-browser processes
whose command line passes the port substring test and waits, but then
spawns the browser subprocess unconditionally — no port-availability
recheck precedes the spawn; readiness is judged only by post-spawn
polling of the debug endpoint. -/
theorem claim_C4_amended_spawn_unconditional (L : Launcher)
    (lenv : LaunchEnv) (st : SysState) (h : L.browser_path ≠ "") :
    (launch_browser_with_debug_port L lenv st).spawned = true ∧
    (∀ p ∈ st.processes,
       p ∉ (kill_existing_browser_instances L.config.browser_name L.debug_port st).processes →
       matchesBrowserName (browser_process_names L.config.browser_name) p.name = true ∧
       advertisesPortArg L.debug_port p.cmdline = true) := by
  constructor
  · unfold launch_browser_with_debug_port
    rw [if_neg h]
    split <;> rfl
  · intro p hmem hout
    by_cases hk : (matchesBrowserName (browser_process_names L.config.browser_name) p.name &&
        advertisesPortArg L.debug_port p.cmdline) = true
    · simp only [Bool.and_eq_true] at hk
      exact hk
    · exfalso
      apply hout
      have hfalse : (matchesBrowserName (browser_process_names L.config.browser_name) p.name &&
          advertisesPortArg L.debug_port p.cmdline) = false := by
        cases hAB : (matchesBrowserName (browser_process_names L.config.browser_name) p.name &&
            advertisesPortArg L.debug_port p.cmdline) with
        | true => exact absurd hAB hk
        | false => rfl
      unfold kill_existing_browser_instances
      simp only [List.mem_filter]
      exact ⟨hmem, by rw [hfalse]; rfl⟩

/-- Witness for the amended C4: a concrete launch step spawns even when
the debug endpoint never answers. -/
theorem claim_C4_witness :
    c4Launcher.browser_path ≠ "" ∧
    (launch_browser_with_debug_port c4Launcher w4LaunchEnv c4St).spawned = true :=
  ⟨by decide,
   (claim_C4_amended_spawn_unconditional c4Launcher w4LaunchEnv c4St (by decide)).1⟩

/- ---------------------------------------------------------------------
   Claim C9
   --------------------------------------------------------------------- -/

/-- Counterexample to C9 as stated: with no executable on disk,
`BrowserLauncher.__init__` itself raises — construction yields an
error, so `launch()` is never reached and never "returns false"; the
state is untouched (no temp directory, no process). -/
theorem claim_C9_counterexample :
    (launcher_init cChromeCfg c9Env c9St).1 =
      Except.error "Could not find chrome executable" ∧
    (launcher_init cChromeCfg c9Env c9St).2 = c9St := by
  constructor <;> rfl

/-- Claim C9 (amended): for every configuration whose executable cannot
be found, the constructor raises before the temp-directory creation and
before any spawn: `launcher_init` returns the error and leaves the OS
state exactly unchanged. -/
theorem claim_C9_amended_missing_executable_raises_at_construction
    (cfg : BrowserConfig) (env : FsEnv) (st : SysState)
    (h : find_browser_executable cfg env = none) :
    launcher_init cfg env st =
      (Except.error ("Could not find " ++ cfg.browser_name.str ++ " executable"), st) := by
  unfold launcher_init
  have h1 : ¬(cfg.os_type ≠ OSType.linux ∧ cfg.os_type ≠ OSType.windows) := by
    cases cfg.os_type <;> simp
  have h2 : ¬(cfg.browser_name ≠ BrowserType.chrome ∧
      cfg.browser_name ≠ BrowserType.firefox) := by
    cases cfg.browser_name <;> simp
  rw [if_neg h1, if_neg h2, h]

/-- Witness for the amended C9 at a concrete empty filesystem. -/
theorem claim_C9_witness :
    find_browser_executable cChromeCfg c9Env = none ∧
    launcher_init cChromeCfg c9Env c9St =
      (Except.error ("Could not find " ++ cChromeCfg.browser_name.str ++ " executable"), c9St) :=
  ⟨rfl,
   claim_C9_amended_missing_executable_raises_at_construction cChromeCfg c9Env c9St rfl⟩

/- ---------------------------------------------------------------------
   Claim C10
   --------------------------------------------------------------------- -/

theorem launcher_init_ok (cfg : BrowserConfig) (env : FsEnv) (st : SysState)
    {L : Launcher} {st' : SysState}
    (h : launcher_init cfg env st = (Except.ok L, st')) :
    L.automation_profile_dir = (automation_prefix_of cfg.browser_name, st.tempCounter) ∧
    st'.tempDirs = (automation_prefix_of cfg.browser_name, st.tempCounter) :: st.tempDirs ∧
    st'.tempCounter = st.tempCounter + 1 := by
  unfold launcher_init at h
  have h1 : ¬(cfg.os_type ≠ OSType.linux ∧ cfg.os_type ≠ OSType.windows) := by
    cases cfg.os_type <;> simp
  have h2 : ¬(cfg.browser_name ≠ BrowserType.chrome ∧
      cfg.browser_name ≠ BrowserType.firefox) := by
    cases cfg.browser_name <;> simp
  rw [if_neg h1, if_neg h2] at h
  cases hfind : find_browser_executable cfg env with
  | none => rw [hfind] at h; exact absurd h (by simp)
  | some path =>
    rw [hfind] at h
    cases horig : get_original_profile_dir cfg env with
    | error e => rw [horig] at h; exact absurd h (by simp)
    | ok orig =>
      rw [horig] at h
      simp only [mkdtemp] at h
      rw [Prod.ext_iff] at h
      obtain ⟨hL, hst⟩ := h
      simp only [Except.ok.injEq] at hL
      subst hL
      subst hst
      exact ⟨rfl, rfl, rfl⟩

/-- Claim C10: constructing a `BrowserLauncher` itself creates a fresh
temporary automation profile directory (mkdtemp with the browser-family
prefix) before `launch` is ever called; the directory exists on disk
afterwards, is distinct from every pre-existing temp directory, and a
second construction yields a distinct directory. -/
theorem claim_C10_construction_creates_fresh_temp_dir
    (cfg : BrowserConfig) (env : FsEnv) (st : SysState)
    (L : Launcher) (st' : SysState)
    (hwf : ∀ d ∈ st.tempDirs, d.2 < st.tempCounter)
    (h : launcher_init cfg env st = (Except.ok L, st')) :
    L.automation_profile_dir = (automation_prefix_of cfg.browser_name, st.tempCounter) ∧
    L.automation_profile_dir ∈ st'.tempDirs ∧
    L.automation_profile_dir ∉ st.tempDirs ∧
    (∀ cfg2 env2 L2 st2, launcher_init cfg2 env2 st' = (Except.ok L2, st2) →
       L2.automation_profile_dir ≠ L.automation_profile_dir) := by
  obtain ⟨hdir, hdirs, hcnt⟩ := launcher_init_ok cfg env st h
  refine ⟨hdir, ?_, ?_, ?_⟩
  · rw [hdir, hdirs]
    exact List.mem_cons_self _ _
  · rw [hdir]
    intro hmem
    have hlt := hwf _ hmem
    simp only at hlt
    omega
  · intro cfg2 env2 L2 st2 h2
    obtain ⟨hdir2, -, -⟩ := launcher_init_ok cfg2 env2 st' h2
    rw [hdir2, hdir, hcnt]
    intro hEq
    have hsnd := congrArg Prod.snd hEq
    simp only at hsnd
    omega

/-- Witness for C10 at a concrete filesystem with Chrome installed. -/
theorem claim_C10_witness :
    c10Launcher.automation_profile_dir =
      (automation_prefix_of cChromeCfg.browser_name, c10St.tempCounter) ∧
    c10Launcher.automation_profile_dir ∈ c10StAfter.tempDirs ∧
    c10Launcher.automation_profile_dir ∉ c10St.tempDirs :=
  ⟨(claim_C10_construction_creates_fresh_temp_dir cChromeCfg c10Env c10St
      c10Launcher c10StAfter (by intro d hd; simp [c10St] at hd) rfl).1,
   (claim_C10_construction_creates_fresh_temp_dir cChromeCfg c10Env c10St
      c10Launcher c10StAfter (by intro d hd; simp [c10St] at hd) rfl).2.1,
   (claim_C10_construction_creates_fresh_temp_dir cChromeCfg c10Env c10St
      c10Launcher c10StAfter (by intro d hd; simp [c10St] at hd) rfl).2.2.1⟩

/- ---------------------------------------------------------------------
   Claim C5
   --------------------------------------------------------------------- -/

theorem kill_existing_instances_processes (names : List String)
    (port : Option Nat) (st : SysState) :
    ((kill_existing_instances names port st).2).processes =
      st.processes.filter (fun p => !(pm_matches names p && pm_port_match port p)) :=
  rfl

/-- Counterexample to C5: three concrete listings refute the claim over
`get_available_profiles`.  Chrome: a scan that discovers "Profile 1"
before "Default" keeps "Default" at its scan position, not at the
front.  Firefox: a profiles.ini declaring "Default" suppresses the
exact canonical lowercase "default" entirely (the case-insensitive test
at launchers.py 584); a profiles.ini declaring both "Default" and
"default" returns the canonical entry twice. -/
theorem claim_C5_counterexample :
    (get_available_profiles BrowserType.chrome c5Env = ["Profile 1", "Default"] ∧
     (get_available_profiles BrowserType.chrome c5Env).head? ≠ some "Default") ∧
    (get_available_profiles BrowserType.firefox c5fEnvA = ["Default"] ∧
     (get_available_profiles BrowserType.firefox c5fEnvA).count "default" = 0) ∧
    (get_available_profiles BrowserType.firefox c5fEnvB = ["Default", "default"] ∧
     ((get_available_profiles BrowserType.firefox c5fEnvB).map strLower).count
        "default" = 2) := by
  refine ⟨⟨rfl, ?_⟩, ⟨rfl, by decide⟩, ⟨rfl, by decide⟩⟩
  intro h
  have h2 : some "Profile 1" = some "Default" := h
  have h3 : "Profile 1" = "Default" := Option.some.injEq .. ▸ (by injection h2)
  exact absurd h3 (by decide)

/-- Claim C5 (amended): for both browser families the profile listing
always contains a canonical default entry — the exact string "Default"
for Chrome, an entry equal to "default" up to case for Firefox (a
discovered "Default" suppresses the synthetic lowercase entry) — and it
appears exactly once provided the discovered names are pairwise
distinct (exactly for Chrome, case-insensitively for Firefox); the
entry is at the front whenever the scan raised an IO error or
discovered no default entry, but a discovered default keeps its scan
position instead of being moved to the front. -/
theorem claim_C5_amended_default_once (env : FsEnv)
    (hndc : chromeListingNodup env) (hndf : firefoxNamesLowerNodup env) :
    ((get_available_profiles BrowserType.chrome env).count "Default" = 1 ∧
     (chromeDefaultNotDiscovered env →
       (get_available_profiles BrowserType.chrome env).head? = some "Default")) ∧
    (((get_available_profiles BrowserType.firefox env).map strLower).count
        "default" = 1 ∧
     (firefoxDefaultNotDiscovered env →
       (get_available_profiles BrowserType.firefox env).head? = some "default")) := by
  constructor
  · cases hL : env.chromeListing with
    | none =>
      constructor
      · simp [get_available_profiles, get_chrome_profiles_from_original, hL]
      · intro _
        simp [get_available_profiles, get_chrome_profiles_from_original, hL]
    | some l =>
      have hnod : (l.map ChromeDirEntry.name).Nodup := by
        unfold chromeListingNodup at hndc
        rw [hL] at hndc
        exact hndc
      have hdisc : (chrome_discovered env.dirExists l).Nodup := by
        unfold chrome_discovered
        cases env.dirExists with
        | true =>
          simp only [if_true]
          exact hnod.sublist ((List.filter_sublist l).map ChromeDirEntry.name)
        | false => simp
      unfold get_available_profiles get_chrome_profiles_from_original
      rw [hL]
      dsimp only
      by_cases hmem : "Default" ∈ chrome_discovered env.dirExists l
      · rw [if_pos hmem]
        constructor
        · exact List.count_eq_one_of_mem hdisc hmem
        · intro hnotd
          exfalso
          unfold chromeDefaultNotDiscovered at hnotd
          rw [hL] at hnotd
          exact hnotd hmem
      · rw [if_neg hmem]
        constructor
        · rw [List.count_cons_self, List.count_eq_zero_of_not_mem hmem]
        · intro _
          rfl
  · cases hF : env.firefoxIni with
    | none =>
      constructor
      · simp only [get_available_profiles, get_firefox_profiles_from_original, hF]
        decide
      · intro _
        simp only [get_available_profiles, get_firefox_profiles_from_original, hF]
        rfl
    | some names =>
      have hnod : (names.map strLower).Nodup := by
        unfold firefoxNamesLowerNodup at hndf
        rw [hF] at hndf
        exact hndf
      have hdisc : ((firefox_discovered env.dirExists names).map strLower).Nodup := by
        unfold firefox_discovered
        cases env.dirExists with
        | true =>
          simp only [if_true]
          exact hnod.sublist ((List.filter_sublist names).map strLower)
        | false => simp
      unfold get_available_profiles get_firefox_profiles_from_original
      rw [hF]
      dsimp only
      by_cases hmem : "default" ∈ (firefox_discovered env.dirExists names).map strLower
      · rw [if_pos hmem]
        constructor
        · exact List.count_eq_one_of_mem hdisc hmem
        · intro hnotd
          exfalso
          unfold firefoxDefaultNotDiscovered at hnotd
          rw [hF] at hnotd
          exact hnotd hmem
      · rw [if_neg hmem]
        constructor
        · rw [List.map_cons]
          have hld : strLower "default" = "default" := by decide
          rw [hld, List.count_cons_self, List.count_eq_zero_of_not_mem hmem]
        · intro _
          rfl

/-- Witness for the amended C5: a Chrome scan that discovers only
"Profile 1" (and a Firefox scan that raises) yields the canonical
default synthesised at the front, exactly once, in both branches. -/
theorem claim_C5_witness :
    (get_available_profiles BrowserType.chrome c5wEnv).count "Default" = 1 ∧
    (get_available_profiles BrowserType.chrome c5wEnv).head? = some "Default" ∧
    ((get_available_profiles BrowserType.firefox c5wEnv).map strLower).count
        "default" = 1 ∧
    (get_available_profiles BrowserType.firefox c5wEnv).head? = some "default" :=
  ⟨(claim_C5_amended_default_once c5wEnv
      (by show (List.map ChromeDirEntry.name
            [{ name := "Profile 1", isDir := true, hasPreferences := true }]).Nodup
          decide)
      (by exact True.intro)).1.1,
   (claim_C5_amended_default_once c5wEnv
      (by show (List.map ChromeDirEntry.name
            [{ name := "Profile 1", isDir := true, hasPreferences := true }]).Nodup
          decide)
      (by exact True.intro)).1.2
     (by show "Default" ∉ chrome_discovered true
            [{ name := "Profile 1", isDir := true, hasPreferences := true }]
         decide),
   (claim_C5_amended_default_once c5wEnv
      (by show (List.map ChromeDirEntry.name
            [{ name := "Profile 1", isDir := true, hasPreferences := true }]).Nodup
          decide)
      (by exact True.intro)).2.1,
   (claim_C5_amended_default_once c5wEnv
      (by show (List.map ChromeDirEntry.name
            [{ name := "Profile 1", isDir := true, hasPreferences := true }]).Nodup
          decide)
      (by exact True.intro)).2.2
     (by exact True.intro)⟩

/- ---------------------------------------------------------------------
   Claim C6
   --------------------------------------------------------------------- -/

/-- Counterexample to C6: `kill_existing_instances` called with port 922
kills the only process in the table — a Chrome advertising port 9222 —
because the substring test `'--remote-debugging-port=922' in cmdline`
matches the longer port; that process does not advertise port 922. -/
theorem claim_C6_counterexample :
    c6Proc ∈ c6St.processes ∧
    ((kill_existing_instances (browser_process_names BrowserType.chrome)
        (some 922) c6St).2).processes = [] ∧
    (kill_existing_instances (browser_process_names BrowserType.chrome)
        (some 922) c6St).1 = true ∧
    spec_advertises_port c6Proc.cmdline 922 = false ∧
    spec_advertises_port c6Proc.cmdline 9222 = true := by
  refine ⟨List.Mem.head _, rfl, rfl, by decide, by decide⟩

/-- Claim C6 (amended): with a port supplied, a process is killed only
when it matches the browser names and the flag text
`--remote-debugging-port=<port>` occurs as a substring of its joined
command line; because the test is substring containment, a process
advertising a port of which the supplied port is a numeric prefix can
also be killed. -/
theorem claim_C6_amended_killed_only_substring_matches
    (names : List String) (port : Nat) (st : SysState) (p : ProcInfo)
    (hmem : p ∈ st.processes)
    (hkilled : p ∉ ((kill_existing_instances names (some port) st).2).processes) :
    pm_matches names p = true ∧
    strContains (joinSpace p.cmdline)
      ("--remote-debugging-port=" ++ toString port) = true := by
  by_cases hk : (pm_matches names p && pm_port_match (some port) p) = true
  · simp only [Bool.and_eq_true] at hk
    exact ⟨hk.1, hk.2⟩
  · exfalso
    apply hkilled
    have hfalse : (pm_matches names p && pm_port_match (some port) p) = false := by
      cases hAB : (pm_matches names p && pm_port_match (some port) p) with
      | true => exact absurd hAB hk
      | false => rfl
    rw [kill_existing_instances_processes]
    rw [List.mem_filter]
    exact ⟨hmem, by rw [hfalse]; rfl⟩

/-- Witness for the amended C6: the same-port kill at 9222 removes the
Chrome advertising 9222, and the theorem certifies the name match and
the substring containment. -/
theorem claim_C6_witness :
    c6Proc ∈ c6St.processes ∧
    (pm_matches (browser_process_names BrowserType.chrome) c6Proc = true ∧
     strContains (joinSpace c6Proc.cmdline)
       ("--remote-debugging-port=" ++ toString 9222) = true) := by
  have hnil : ((kill_existing_instances (browser_process_names BrowserType.chrome)
      (some 9222) c6St).2).processes = [] := rfl
  refine ⟨List.Mem.head _, ?_⟩
  exact claim_C6_amended_killed_only_substring_matches
    (browser_process_names BrowserType.chrome) 9222 c6St c6Proc
    (List.Mem.head _)
    (by rw [hnil]; exact List.not_mem_nil _)

end Automail
